import Mathlib

/-!
Verification of the amiya desktop-shell daemon's backend-coordination and
control-plane layer: a shallow embedding of the event bus (src/events.rs),
the audio and backlight control adapters (src/backend/system/audio.rs,
src/backend/system/backlight.rs), the application state registry
(src/app.rs) and the IPC command server (src/ipc/server.rs,
src/ipc/protocol.rs), together with theorems settling the spec claims.

Modelling conventions:
- Rust f64 level values are modelled as rationals; the source only
  clamps, adds, subtracts and takes min/max of them, which are exact.
- Stateful methods become pure functions returning the result, the
  updated state and the list of events emitted to the event manager
  during the call (an effect trace).
- Filesystem and D-Bus effects are modelled by explicit state: a sysfs
  backlight device is a record of its file contents and of whether each
  read/write would succeed.
-/

/-- Rust `f64::clamp(lo, hi)` as written in the source: if below `lo`
return `lo`, if above `hi` return `hi`, otherwise the value itself. -/
def fclamp (x lo hi : ℚ) : ℚ :=
  if x < lo then lo else if x > hi then hi else x

/-- Rust `f64::round`: round half away from zero. -/
def rustRound (q : ℚ) : ℤ :=
  if 0 ≤ q then ⌊q + 1 / 2⌋ else ⌈q - 1 / 2⌉

/-- Rust `as u32` cast from a float (saturating since Rust 1.45). -/
def f64AsU32 (z : ℤ) : ℕ :=
  (min (max z 0) (2 ^ 32 - 1)).toNat

/-- Error type from src/error.rs (`Io` carries the error text of the
underlying I/O error). -/
inductive AmiyaError where
  | Config (msg : String)
  | Ipc (msg : String)
  | Backend (msg : String)
  | Ui (msg : String)
  | Io (msg : String)
  | Other (msg : String)
deriving DecidableEq, Repr

/-- Display impl of `AmiyaError` from src/error.rs. -/
def AmiyaError.toMessage : AmiyaError → String
  | .Config msg => "Configuration error: " ++ msg
  | .Ipc msg => "IPC error: " ++ msg
  | .Backend msg => "Backend error: " ++ msg
  | .Ui msg => "UI error: " ++ msg
  | .Io msg => "I/O error: " ++ msg
  | .Other msg => "Error: " ++ msg

/-- Backend availability status from src/error.rs. -/
inductive BackendStatus where
  | Available
  | Unavailable
  | Error
deriving DecidableEq, Repr

/-- Boolean success test for `Except` results. -/
def exceptOk {ε α : Type} : Except ε α → Bool
  | .ok _ => true
  | .error _ => false

/-- PopupType from src/events.rs lines 119-124. Note it has only three
variants: unlike the wire-protocol PopupType of src/ipc/protocol.rs it
has no `Power` variant. -/
inductive EventsPopupType where
  | Bluetooth
  | Wifi
  | MediaControl
deriving DecidableEq, Repr

/-- WorkspaceInfo from src/events.rs. -/
structure WorkspaceInfo where
  id : ℕ
  name : Option String
  is_active : Bool
  is_focused : Bool
deriving DecidableEq, Repr

/-- WifiNetworkInfo from src/events.rs. -/
structure WifiNetworkInfo where
  ssid : String
  signal_strength : ℕ
  secured : Bool
  connected : Bool
deriving DecidableEq, Repr

/-- BluetoothDeviceInfo from src/events.rs. -/
structure BluetoothDeviceInfo where
  address : String
  name : String
  connected : Bool
  paired : Bool
deriving DecidableEq, Repr

/-- Event enum from src/events.rs: one variant per observable state
change. `f64` payloads are rationals, `u32`/`u64`/`u8` are `ℕ`, `i32`
is `ℤ`. -/
inductive Event where
  | WorkspaceChanged (id : ℕ)
  | WorkspaceCreated (id : ℕ) (name : Option String)
  | WorkspaceRemoved (id : ℕ)
  | WorkspacesUpdated (workspaces : List WorkspaceInfo)
  | VolumeChanged (level : ℚ) (muted : Bool)
  | BrightnessChanged (level : ℚ)
  | CpuUsageChanged (usage : ℚ)
  | MemoryUsageChanged (used : ℕ) (total : ℕ) (percent : ℚ)
  | TemperatureChanged (celsius : ℤ)
  | WifiStateChanged (enabled : Bool)
  | WifiNetworkConnected (ssid : String)
  | WifiNetworkDisconnected
  | WifiNetworksUpdated (networks : List WifiNetworkInfo)
  | BluetoothStateChanged (enabled : Bool)
  | BluetoothDeviceConnected (address : String) (name : String)
  | BluetoothDeviceDisconnected (address : String)
  | BluetoothDevicesUpdated (devices : List BluetoothDeviceInfo)
  | MediaPlayerChanged (player : Option String)
  | MediaTrackChanged (title : String) (artist : String) (album : Option String)
  | MediaPlaybackChanged (playing : Bool)
  | MediaVolumeChanged (volume : ℚ)
  | PopupRequested (popup_type : EventsPopupType)
  | PopupClosed (popup_type : EventsPopupType)
deriving DecidableEq, Repr

/-- EventManager from src/events.rs: a tokio broadcast channel of the
given capacity. We model the channel by the full list of events sent so
far (`log`); a receiver is a position into that list, and the bounded
buffer means a receiver can only observe the last `capacity` entries. -/
structure EventManager where
  capacity : ℕ
  log : List Event
deriving DecidableEq, Repr

/-- `EventManager::new(capacity)`. -/
def EventManager.new (capacity : ℕ) : EventManager :=
  { capacity := capacity, log := [] }

/-- `EventManager::emit`: `broadcast::Sender::send`, never blocks and
ignores the no-subscriber error. -/
def EventManager.emit (m : EventManager) (event : Event) : EventManager :=
  { m with log := m.log ++ [event] }

/-- Emit a list of events in order. -/
def EventManager.emitAll (m : EventManager) (events : List Event) : EventManager :=
  events.foldl EventManager.emit m

/-- `EventManager::subscribe`: `broadcast::Sender::subscribe` hands out
a receiver positioned after everything already sent; it never fails. -/
def EventManager.subscribe (m : EventManager) : ℕ :=
  m.log.length

/-- Events a receiver at position `pos` can still observe, in order: the
tokio broadcast buffer keeps only the last `capacity` events, and a
lagging receiver skips (RecvError::Lagged) to the oldest retained one. -/
def EventManager.observable (m : EventManager) (pos : ℕ) : List Event :=
  m.log.drop (max pos (m.log.length - m.capacity))

/-- AudioControl from src/backend/system/audio.rs: the cached volume and
mute flag plus whether an event manager was attached (`events.is_some()`;
each operation below returns the events it emits to it as a trace). The
D-Bus connection handle is never consulted by the volume/mute methods in
the source, so it is not part of the model. -/
structure AudioControl where
  volume : ℚ
  muted : Bool
  events : Bool
deriving DecidableEq, Repr

/-- `AudioControl::new()`: cache pre-populated with 50.0 / unmuted, no
event manager. -/
def AudioControl.new : AudioControl :=
  { volume := 50, muted := false, events := false }

/-- `AudioControl::with_events`. -/
def AudioControl.with_events : AudioControl :=
  { volume := 50, muted := false, events := true }

/-- `AudioControl::get_volume`: read the cached volume; always `Ok`. -/
def AudioControl.get_volume (st : AudioControl) : Except AmiyaError ℚ :=
  .ok st.volume

/-- `AudioControl::get_mute`: read the cached mute flag; always `Ok`. -/
def AudioControl.get_mute (st : AudioControl) : Except AmiyaError Bool :=
  .ok st.muted

/-- `AudioControl::set_volume` (audio.rs lines 69-91): clamp to
`[0, 100]`, write the cache, and if an event manager is present emit one
`VolumeChanged` with the new level and the current mute flag. -/
def AudioControl.set_volume (st : AudioControl) (volume : ℚ) :
    Except AmiyaError Unit × AudioControl × List Event :=
  let v := fclamp volume 0 100
  (.ok (), { st with volume := v },
    if st.events then [Event.VolumeChanged v st.muted] else [])

/-- `AudioControl::increase_volume` (audio.rs lines 94-98). -/
def AudioControl.increase_volume (st : AudioControl) (step : ℚ) :
    Except AmiyaError Unit × AudioControl × List Event :=
  match st.get_volume with
  | .ok current => st.set_volume (min (current + step) 100)
  | .error e => (.error e, st, [])

/-- `AudioControl::decrease_volume` (audio.rs lines 101-105). -/
def AudioControl.decrease_volume (st : AudioControl) (step : ℚ) :
    Except AmiyaError Unit × AudioControl × List Event :=
  match st.get_volume with
  | .ok current => st.set_volume (max (current - step) 0)
  | .error e => (.error e, st, [])

/-- `AudioControl::set_mute` (audio.rs lines 114-132): write the cache
and emit one `VolumeChanged` with the current volume and the new flag. -/
def AudioControl.set_mute (st : AudioControl) (muted : Bool) :
    Except AmiyaError Unit × AudioControl × List Event :=
  (.ok (), { st with muted := muted },
    if st.events then [Event.VolumeChanged st.volume muted] else [])

/-- `AudioControl::toggle_mute` (audio.rs lines 135-138). -/
def AudioControl.toggle_mute (st : AudioControl) :
    Except AmiyaError Unit × AudioControl × List Event :=
  match st.get_mute with
  | .ok current => st.set_mute (!current)
  | .error e => (.error e, st, [])

/-- A sysfs backlight device as seen through backlight.rs: the numeric
contents of its `brightness` and `max_brightness` files, and whether
reading or writing each would succeed (`fs::read_to_string` plus parse,
and `fs::write`, which needs udev permissions). -/
structure SysfsDevice where
  brightnessRaw : ℕ
  maxBrightness : ℕ
  brightnessReadable : Bool
  maxReadable : Bool
  writable : Bool
deriving DecidableEq, Repr

/-- `BacklightControl::read_brightness_from_sysfs` (backlight.rs lines
96-114): read `brightness`, read `max_brightness`, reject a zero
maximum, and return `(current / max) * 100.0`. -/
def read_brightness_from_sysfs (d : SysfsDevice) : Except AmiyaError ℚ :=
  if d.brightnessReadable = false then
    .error (.Backend "Failed to read brightness")
  else if d.maxReadable = false then
    .error (.Backend "Failed to read max_brightness")
  else if d.maxBrightness = 0 then
    .error (.Backend "Invalid max_brightness: 0")
  else
    .ok ((d.brightnessRaw : ℚ) / (d.maxBrightness : ℚ) * 100)

/-- `BacklightControl::write_brightness_to_sysfs` (backlight.rs lines
147-161): read `max_brightness`, convert the percentage to a raw value
with `((percent / 100.0) * max).round() as u32`, and write it. -/
def write_brightness_to_sysfs (d : SysfsDevice) (percent : ℚ) :
    Except AmiyaError SysfsDevice :=
  if d.maxReadable = false then
    .error (.Backend "Failed to read max_brightness")
  else
    let value := f64AsU32 (rustRound (percent / 100 * (d.maxBrightness : ℚ)))
    if d.writable = false then
      .error (.Backend "Failed to write brightness")
    else
      .ok { d with brightnessRaw := value }

/-- BacklightControl from src/backend/system/backlight.rs: the detected
device (`device_path`, here carrying the state of the files behind it),
the cached brightness, and whether an event manager is attached. -/
structure BacklightControl where
  device : Option SysfsDevice
  current_brightness : ℚ
  events : Bool
deriving DecidableEq, Repr

/-- `BacklightControl::is_available` (backlight.rs lines 69-71). -/
def BacklightControl.is_available (st : BacklightControl) : Bool :=
  st.device.isSome

/-- `BacklightControl::get_brightness` (backlight.rs lines 74-93): try
the sysfs read first; on success overwrite the cache with the fresh
value and return it; otherwise fall back to the cached value. Every
path returns `Ok`. -/
def BacklightControl.get_brightness (st : BacklightControl) :
    Except AmiyaError ℚ × BacklightControl :=
  match st.device with
  | some d =>
    match read_brightness_from_sysfs d with
    | .ok brightness => (.ok brightness, { st with current_brightness := brightness })
    | .error _ => (.ok st.current_brightness, st)
  | none => (.ok st.current_brightness, st)

/-- `BacklightControl::set_brightness` (backlight.rs lines 117-144):
clamp to `[0, 100]`, write the cache, best-effort write to sysfs (a
failure is logged and ignored), then emit one `BrightnessChanged` with
the new level; always returns `Ok`. -/
def BacklightControl.set_brightness (st : BacklightControl) (brightness : ℚ) :
    Except AmiyaError Unit × BacklightControl × List Event :=
  let b := fclamp brightness 0 100
  let st1 := { st with current_brightness := b }
  let st2 :=
    match st.device with
    | some d =>
      match write_brightness_to_sysfs d b with
      | .ok d2 => { st1 with device := some d2 }
      | .error _ => st1
    | none => st1
  (.ok (), st2, if st.events then [Event.BrightnessChanged b] else [])

/-- `BacklightControl::increase_brightness` (backlight.rs lines 164-168). -/
def BacklightControl.increase_brightness (st : BacklightControl) (step : ℚ) :
    Except AmiyaError Unit × BacklightControl × List Event :=
  match st.get_brightness with
  | (.ok current, st1) => st1.set_brightness (min (current + step) 100)
  | (.error e, st1) => (.error e, st1, [])

/-- `BacklightControl::decrease_brightness` (backlight.rs lines 171-175). -/
def BacklightControl.decrease_brightness (st : BacklightControl) (step : ℚ) :
    Except AmiyaError Unit × BacklightControl × List Event :=
  match st.get_brightness with
  | (.ok current, st1) => st1.set_brightness (max (current - step) 0)
  | (.error e, st1) => (.error e, st1, [])

/-- Whether the sysfs read of `get_brightness` would currently succeed:
a device is present and all three read checks pass. -/
def BacklightControl.sysfsReadOk (st : BacklightControl) : Bool :=
  match st.device with
  | some d => exceptOk (read_brightness_from_sysfs d)
  | none => false

/-- PowerControl from src/backend/system/power.rs: only the presence of
the D-Bus system connection matters to the claims. -/
structure PowerControl where
  connected : Bool
deriving DecidableEq, Repr

/-- `PowerControl::new()` (power.rs lines 36-40): no connection yet. -/
def PowerControl.new : PowerControl :=
  { connected := false }

/-- BluetoothControl from src/backend/system/bluetooth.rs, reduced to
its construction-time cache defaults (no claim exercises its methods). -/
structure BluetoothControl where
  connected : Bool
  powered : Bool
  events : Bool
deriving DecidableEq, Repr

/-- NetworkControl from src/backend/system/network.rs, reduced to its
construction-time cache defaults. -/
structure NetworkControl where
  connected : Bool
  wifi_enabled : Bool
  events : Bool
deriving DecidableEq, Repr

/-- MediaControl from src/backend/system/media.rs, reduced to its
construction-time cache defaults. -/
structure MediaControl where
  connected : Bool
  volume : ℚ
  events : Bool
deriving DecidableEq, Repr

/-- BatteryControl from src/backend/system/battery.rs, reduced to its
construction-time cache defaults. -/
structure BatteryControl where
  connected : Bool
  events : Bool
deriving DecidableEq, Repr

/-- NiriClient from src/backend/niri/client.rs, reduced to the fact that
its construction found and connected the compositor socket. -/
structure NiriClient where
  socket_connected : Bool
deriving DecidableEq, Repr

/-- PopupType from src/ipc/protocol.rs lines 33-40 (the wire protocol
one, with four variants). -/
inductive PopupType where
  | Bluetooth
  | Wifi
  | MediaControl
  | Power
deriving DecidableEq, Repr

/-- Debug formatting of the wire PopupType, as used by the popup
response messages in server.rs. -/
def PopupType.debugStr : PopupType → String
  | .Bluetooth => "Bluetooth"
  | .Wifi => "Wifi"
  | .MediaControl => "MediaControl"
  | .Power => "Power"

/-- Conversion the popup handlers of server.rs rely on when they place a
wire `PopupType` into `Event::PopupRequested`/`Event::PopupClosed`,
whose field has the events.rs `PopupType`. The events.rs enum has no
`Power` variant, so the `Power` case has no image: in the source this is
a type mismatch, and the power-popup behavior is undefined (`none`). -/
def PopupType.toEvents : PopupType → Option EventsPopupType
  | .Bluetooth => some .Bluetooth
  | .Wifi => some .Wifi
  | .MediaControl => some .MediaControl
  | .Power => none

/-- VolumeAction from src/ipc/protocol.rs. -/
inductive VolumeAction where
  | Up (amount : Option ℚ)
  | Down (amount : Option ℚ)
  | Set (level : ℚ)
  | Mute
  | Unmute
  | ToggleMute
deriving DecidableEq, Repr

/-- BrightnessAction from src/ipc/protocol.rs. -/
inductive BrightnessAction where
  | Up (amount : Option ℚ)
  | Down (amount : Option ℚ)
  | Set (level : ℚ)
deriving DecidableEq, Repr

/-- PowerAction from src/ipc/protocol.rs. -/
inductive PowerAction where
  | Shutdown
  | Reboot
  | Suspend
  | Hibernate
  | Lock
deriving DecidableEq, Repr

/-- Command from src/ipc/protocol.rs lines 6-30. -/
inductive Command where
  | ShowPopup (popup : PopupType)
  | HidePopup (popup : PopupType)
  | TogglePopup (popup : PopupType)
  | Volume (action : VolumeAction)
  | Brightness (action : BrightnessAction)
  | Power (action : PowerAction)
  | Status
  | Ping
deriving DecidableEq, Repr

/-- Response from src/ipc/protocol.rs lines 77-89. -/
inductive Response where
  | Success (message : Option String)
  | Error (message : String)
  | Status (version : String) (uptime : ℕ)
  | Pong
deriving DecidableEq, Repr

/-- `Response::success_with_message`. -/
def Response.success_with_message (message : String) : Response :=
  .Success (some message)

/-- `Response::error`. -/
def Response.error (message : String) : Response :=
  .Error message

/-- `Response::pong`. -/
def Response.pong : Response :=
  .Pong

/-- AppState from src/app.rs lines 11-44: the registry. The config field
carries nothing the core claims touch and is omitted; every adapter
field keeps its source name and optionality. -/
structure AppState where
  events : EventManager
  backend_status : BackendStatus
  niri_client : Option NiriClient
  audio_control : Option AudioControl
  backlight_control : Option BacklightControl
  bluetooth_control : Option BluetoothControl
  network_control : Option NetworkControl
  media_control : Option MediaControl
  battery_control : Option BatteryControl
  power_control : Option PowerControl
deriving DecidableEq, Repr

/-- Environment `AppState::new` runs against: whether `NiriClient::new`
succeeds and which sysfs backlight device `find_backlight_device`
returns. -/
structure SystemWorld where
  niri_available : Bool
  backlight_device : Option SysfsDevice
deriving DecidableEq, Repr

/-- `AppState::new` (app.rs lines 48-118): build the event manager (the
default capacity 100), try niri (optional), then wrap every one of the
seven `create_*_sync` adapters in `Some` unconditionally — none of those
constructors can fail; their connect attempts are spawned in the
background and do not affect construction. -/
def AppState.new (w : SystemWorld) : AppState :=
  { events := EventManager.new 100
    backend_status := if w.niri_available then .Available else .Unavailable
    niri_client := if w.niri_available then some { socket_connected := true } else none
    audio_control := some AudioControl.with_events
    backlight_control := some
      { device := w.backlight_device, current_brightness := 50, events := true }
    bluetooth_control := some { connected := false, powered := false, events := true }
    network_control := some { connected := false, wifi_enabled := false, events := true }
    media_control := some { connected := false, volume := 1, events := true }
    battery_control := some { connected := false, events := true }
    power_control := some PowerControl.new }

/-- Default step constants from src/ipc/server.rs lines 13-14. -/
def DEFAULT_VOLUME_STEP : ℚ := 5

/-- Default brightness step from src/ipc/server.rs line 14. -/
def DEFAULT_BRIGHTNESS_STEP : ℚ := 5

/-- IpcServer from src/ipc/server.rs lines 16-20 (the socket path is
outside the model; `start_time` is represented by the uptime it yields
in the status response). -/
structure IpcServer where
  state : AppState
  version : String
  uptime : ℕ
deriving DecidableEq, Repr

/-- `IpcServer::handle_show_popup` (server.rs lines 145-152): emit a
`PopupRequested` event and answer success. Result is `none` exactly when
the wire popup type has no events.rs counterpart (`Power`), where the
source code is ill-typed and defines no behavior. -/
def IpcServer.handle_show_popup (srv : IpcServer) (popup : PopupType) :
    Option (Response × IpcServer × List Event) :=
  match popup.toEvents with
  | some pt =>
    some (Response.success_with_message ("Showing " ++ popup.debugStr ++ " popup"),
      srv, [Event.PopupRequested pt])
  | none => none

/-- `IpcServer::handle_hide_popup` (server.rs lines 155-162). -/
def IpcServer.handle_hide_popup (srv : IpcServer) (popup : PopupType) :
    Option (Response × IpcServer × List Event) :=
  match popup.toEvents with
  | some pt =>
    some (Response.success_with_message ("Hiding " ++ popup.debugStr ++ " popup"),
      srv, [Event.PopupClosed pt])
  | none => none

/-- `IpcServer::handle_toggle_popup` (server.rs lines 165-174): emits a
show event only (toggling proper is an acknowledged TODO). -/
def IpcServer.handle_toggle_popup (srv : IpcServer) (popup : PopupType) :
    Option (Response × IpcServer × List Event) :=
  match popup.toEvents with
  | some pt =>
    some (Response.success_with_message ("Toggling " ++ popup.debugStr ++ " popup"),
      srv, [Event.PopupRequested pt])
  | none => none

/-- `IpcServer::handle_volume` (server.rs lines 177-201): absent adapter
gives the typed unavailability error; otherwise run the matching audio
method and map its result. -/
def IpcServer.handle_volume (srv : IpcServer) (action : VolumeAction) :
    Response × IpcServer × List Event :=
  match srv.state.audio_control with
  | some audio =>
    let r :=
      match action with
      | .Up amount => audio.increase_volume (amount.getD DEFAULT_VOLUME_STEP)
      | .Down amount => audio.decrease_volume (amount.getD DEFAULT_VOLUME_STEP)
      | .Set level => audio.set_volume level
      | .Mute => audio.set_mute true
      | .Unmute => audio.set_mute false
      | .ToggleMute => audio.toggle_mute
    let srv2 := { srv with state := { srv.state with audio_control := some r.2.1 } }
    match r.1 with
    | .ok _ => (Response.success_with_message "Volume adjusted", srv2, r.2.2)
    | .error e => (Response.error ("Failed to adjust volume: " ++ e.toMessage), srv2, r.2.2)
  | none => (Response.error "Audio control not available", srv, [])

/-- `IpcServer::handle_brightness` (server.rs lines 204-225). -/
def IpcServer.handle_brightness (srv : IpcServer) (action : BrightnessAction) :
    Response × IpcServer × List Event :=
  match srv.state.backlight_control with
  | some backlight =>
    let r :=
      match action with
      | .Up amount => backlight.increase_brightness (amount.getD DEFAULT_BRIGHTNESS_STEP)
      | .Down amount => backlight.decrease_brightness (amount.getD DEFAULT_BRIGHTNESS_STEP)
      | .Set level => backlight.set_brightness level
    let srv2 := { srv with state := { srv.state with backlight_control := some r.2.1 } }
    match r.1 with
    | .ok _ => (Response.success_with_message "Brightness adjusted", srv2, r.2.2)
    | .error e => (Response.error ("Failed to adjust brightness: " ++ e.toMessage), srv2, r.2.2)
  | none => (Response.error "Backlight control not available", srv, [])

/-- `IpcServer::handle_status` (server.rs lines 228-239). -/
def IpcServer.handle_status (srv : IpcServer) : Response :=
  Response.Status srv.version srv.uptime

/-- `IpcServer::handle_command` (server.rs lines 132-142). The source
match lists arms for ShowPopup, HidePopup, TogglePopup, Volume,
Brightness, Status and Ping only: there is no arm for `Command::Power`
and no wildcard, although protocol.rs defines that variant — a
non-exhaustive match, so a power command has no defined behavior
(`none`). -/
def IpcServer.handle_command (srv : IpcServer) (command : Command) :
    Option (Response × IpcServer × List Event) :=
  match command with
  | .ShowPopup popup => srv.handle_show_popup popup
  | .HidePopup popup => srv.handle_hide_popup popup
  | .TogglePopup popup => srv.handle_toggle_popup popup
  | .Volume action => some (srv.handle_volume action)
  | .Brightness action => some (srv.handle_brightness action)
  | .Status => some (srv.handle_status, srv, [])
  | .Ping => some (Response.pong, srv, [])
  | .Power _ => none

/-- Clamping to `[0, 100]` written with `max`/`min`, the form the spec
states. -/
lemma fclamp_eq_max_min (x : ℚ) : fclamp x 0 100 = max 0 (min x 100) := by
  unfold fclamp
  split_ifs with h1 h2
  · rw [min_eq_left (by linarith), max_eq_left (by linarith)]
  · rw [min_eq_right (by linarith), max_eq_right (by linarith)]
  · rw [min_eq_left (by linarith), max_eq_right (by linarith)]

/-- Fixed points of the clamp. -/
lemma fclamp_of_mem (x : ℚ) (h0 : 0 ≤ x) (h1 : x ≤ 100) : fclamp x 0 100 = x := by
  unfold fclamp
  rw [if_neg (by linarith), if_neg (by linarith)]

/-- The result component of `set_brightness` is always `Ok`. -/
lemma set_brightness_ok (st : BacklightControl) (x : ℚ) :
    (st.set_brightness x).1 = .ok () := rfl

/-- The cache after `set_brightness` holds exactly the clamped input,
whatever the device and the outcome of the sysfs write. -/
lemma set_brightness_cache (st : BacklightControl) (x : ℚ) :
    (st.set_brightness x).2.1.current_brightness = fclamp x 0 100 := by
  rcases hd : st.device with _ | d
  · simp [BacklightControl.set_brightness, hd]
  · rcases hw : write_brightness_to_sysfs d (fclamp x 0 100) with e | d2 <;>
      simp [BacklightControl.set_brightness, hd, hw]

/-- The event trace of `set_brightness`: one `BrightnessChanged` with
the clamped level when an event manager is attached, nothing otherwise. -/
lemma set_brightness_events (st : BacklightControl) (x : ℚ) :
    (st.set_brightness x).2.2 =
      if st.events then [Event.BrightnessChanged (fclamp x 0 100)] else [] := by
  rcases hd : st.device with _ | d
  · simp [BacklightControl.set_brightness, hd]
  · rcases hw : write_brightness_to_sysfs d (fclamp x 0 100) with e | d2 <;>
      simp [BacklightControl.set_brightness, hd, hw]

/-- `set_brightness` keeps the `events` flag. -/
lemma set_brightness_events_flag (st : BacklightControl) (x : ℚ) :
    (st.set_brightness x).2.1.events = st.events := by
  rcases hd : st.device with _ | d
  · simp [BacklightControl.set_brightness, hd]
  · rcases hw : write_brightness_to_sysfs d (fclamp x 0 100) with e | d2 <;>
      simp [BacklightControl.set_brightness, hd, hw]

/-- Whether the sysfs read succeeds does not depend on the raw value
stored in the brightness file. -/
lemma read_ok_update_raw (d : SysfsDevice) (v : ℕ) :
    exceptOk (read_brightness_from_sysfs { d with brightnessRaw := v }) =
      exceptOk (read_brightness_from_sysfs d) := by
  simp only [read_brightness_from_sysfs]
  split_ifs <;> rfl

/-- A successful sysfs write only replaces the raw brightness value;
the fields the read checks consult are untouched. -/
lemma write_ok_fields (d d2 : SysfsDevice) (p : ℚ)
    (hw : write_brightness_to_sysfs d p = .ok d2) :
    d2.brightnessReadable = d.brightnessReadable ∧
      d2.maxReadable = d.maxReadable ∧ d2.maxBrightness = d.maxBrightness := by
  unfold write_brightness_to_sysfs at hw
  split_ifs at hw
  rw [Except.ok.injEq] at hw
  rw [← hw]
  exact ⟨rfl, rfl, rfl⟩

/-- `set_brightness` cannot change whether the sysfs read succeeds: the
write only replaces the raw brightness value. -/
lemma set_brightness_sysfsReadOk (st : BacklightControl) (x : ℚ) :
    (st.set_brightness x).2.1.sysfsReadOk = st.sysfsReadOk := by
  rcases hd : st.device with _ | d
  · simp [BacklightControl.set_brightness, BacklightControl.sysfsReadOk, hd]
  · rcases hw : write_brightness_to_sysfs d (fclamp x 0 100) with e | d2
    · simp [BacklightControl.set_brightness, BacklightControl.sysfsReadOk, hd, hw]
    · obtain ⟨h1, h2, h3⟩ := write_ok_fields d d2 _ hw
      simp only [BacklightControl.set_brightness, BacklightControl.sysfsReadOk, hd, hw]
      simp only [read_brightness_from_sysfs, h1, h2, h3]
      split_ifs <;> rfl

/-- When the sysfs read is unavailable, `get_brightness` returns the
cached value and leaves the state untouched. -/
lemma get_brightness_of_read_fails (st : BacklightControl)
    (h : st.sysfsReadOk = false) :
    st.get_brightness = (.ok st.current_brightness, st) := by
  rcases hd : st.device with _ | d
  · simp [BacklightControl.get_brightness, hd]
  · rcases hr : read_brightness_from_sysfs d with e | b
    · simp [BacklightControl.get_brightness, hd, hr]
    · exfalso
      simp only [BacklightControl.sysfsReadOk, hd, hr, exceptOk] at h
      exact Bool.noConfusion h

/-- C1: for every real input x, a successful `set_volume(x)` on
AudioControl (resp. `set_brightness(x)` on BacklightControl) leaves the
cached level equal to `clamp(x, 0, 100)`; in particular `set(150)`
leaves a cached level of 100 and `set(-10)` leaves 0. Stated for every
starting adapter state. -/
theorem c1_set_clamps_cached_level (audio : AudioControl)
    (backlight : BacklightControl) (x y : ℚ) :
    (audio.set_volume x).2.1.volume = max 0 (min x 100)
    ∧ (backlight.set_brightness y).2.1.current_brightness = max 0 (min y 100)
    ∧ (audio.set_volume 150).2.1.volume = 100
    ∧ (audio.set_volume (-10)).2.1.volume = 0
    ∧ (backlight.set_brightness 150).2.1.current_brightness = 100
    ∧ (backlight.set_brightness (-10)).2.1.current_brightness = 0 := by
  refine ⟨?_, ?_, ?_, ?_, ?_, ?_⟩
  · rw [show (audio.set_volume x).2.1.volume = fclamp x 0 100 from rfl,
      fclamp_eq_max_min]
  · rw [set_brightness_cache, fclamp_eq_max_min]
  · rw [show (audio.set_volume 150).2.1.volume = fclamp 150 0 100 from rfl]
    norm_num [fclamp]
  · rw [show (audio.set_volume (-10)).2.1.volume = fclamp (-10) 0 100 from rfl]
    norm_num [fclamp]
  · rw [set_brightness_cache]
    norm_num [fclamp]
  · rw [set_brightness_cache]
    norm_num [fclamp]

/-- C5: the server never delegates a power command: the dispatch match
of `handle_command` (server.rs lines 133-141) has no arm for
`Command::Power` and no wildcard even though protocol.rs defines the
variant and `AppState` builds a `PowerControl`, so a power action
produces no behavior at all instead of an adapter call mapped to
Success/Error. Evaluated here for every server state and action. -/
theorem c5_power_commands_not_dispatched (srv : IpcServer) (a : PowerAction) :
    srv.handle_command (.Power a) = none := rfl

/-- C9: popup handling. The three popup types that exist in the
events.rs enum (bluetooth, wifi, media-control) always yield a Success
response and publish the matching `PopupRequested`/`PopupClosed` event,
independent of every backend adapter. The `power` popup type of the
wire protocol, however, has no counterpart in the events.rs PopupType
enum, so the server cannot build its event: show/hide/toggle of the
power popup have no defined behavior (`none`), refuting the claim for
that type. -/
theorem c9_popup_commands (srv : IpcServer) :
    srv.handle_command (.ShowPopup .Power) = none
    ∧ srv.handle_command (.HidePopup .Power) = none
    ∧ srv.handle_command (.TogglePopup .Power) = none
    ∧ srv.handle_command (.ShowPopup .Bluetooth) =
        some (.Success (some "Showing Bluetooth popup"), srv, [.PopupRequested .Bluetooth])
    ∧ srv.handle_command (.ShowPopup .Wifi) =
        some (.Success (some "Showing Wifi popup"), srv, [.PopupRequested .Wifi])
    ∧ srv.handle_command (.ShowPopup .MediaControl) =
        some (.Success (some "Showing MediaControl popup"), srv, [.PopupRequested .MediaControl])
    ∧ srv.handle_command (.HidePopup .Bluetooth) =
        some (.Success (some "Hiding Bluetooth popup"), srv, [.PopupClosed .Bluetooth])
    ∧ srv.handle_command (.HidePopup .Wifi) =
        some (.Success (some "Hiding Wifi popup"), srv, [.PopupClosed .Wifi])
    ∧ srv.handle_command (.HidePopup .MediaControl) =
        some (.Success (some "Hiding MediaControl popup"), srv, [.PopupClosed .MediaControl])
    ∧ srv.handle_command (.TogglePopup .Bluetooth) =
        some (.Success (some "Toggling Bluetooth popup"), srv, [.PopupRequested .Bluetooth])
    ∧ srv.handle_command (.TogglePopup .Wifi) =
        some (.Success (some "Toggling Wifi popup"), srv, [.PopupRequested .Wifi])
    ∧ srv.handle_command (.TogglePopup .MediaControl) =
        some (.Success (some "Toggling MediaControl popup"), srv, [.PopupRequested .MediaControl]) :=
  ⟨rfl, rfl, rfl, rfl, rfl, rfl, rfl, rfl, rfl, rfl, rfl, rfl⟩

/-- Registry with every adapter absent, as an explicit concrete input
for the server dispatch claims. -/
def appStateNoBackends : AppState :=
  { events := EventManager.new 100
    backend_status := .Unavailable
    niri_client := none
    audio_control := none
    backlight_control := none
    bluetooth_control := none
    network_control := none
    media_control := none
    battery_control := none
    power_control := none }

/-- IPC server over the empty registry. -/
def serverNoBackends : IpcServer :=
  { state := appStateNoBackends, version := "0.1.0", uptime := 0 }

/-- C4 counterexample: with the power adapter absent (indeed with every
adapter absent) a power command does not produce the claimed typed
Error response — it produces no response at all, because the dispatch
match has no `Command::Power` arm. -/
theorem c4_counterexample :
    serverNoBackends.handle_command (.Power .Shutdown) = none
    ∧ ¬ ∃ msg srv2 evs,
        serverNoBackends.handle_command (.Power .Shutdown) =
          some (.Error msg, srv2, evs) := by
  refine ⟨rfl, ?_⟩
  rintro ⟨msg, srv2, evs, h⟩
  exact Option.noConfusion h

/-- C4 amended: every command the server actually dispatches degrades
to a typed "not available" Error response when its adapter is absent —
volume commands (every action) and brightness commands (every action)
do, and they neither panic nor touch the registry state; power
commands, by contrast, are not dispatched at all. -/
theorem c4_absent_adapter_error (srv : IpcServer) (a : VolumeAction)
    (b : BrightnessAction) (pa : PowerAction)
    (h1 : srv.state.audio_control = none)
    (h2 : srv.state.backlight_control = none) :
    srv.handle_command (.Volume a) =
      some (.Error "Audio control not available", srv, [])
    ∧ srv.handle_command (.Brightness b) =
      some (.Error "Backlight control not available", srv, [])
    ∧ srv.handle_command (.Power pa) = none := by
  refine ⟨?_, ?_, rfl⟩
  · simp [IpcServer.handle_command, IpcServer.handle_volume, h1, Response.error]
  · simp [IpcServer.handle_command, IpcServer.handle_brightness, h2, Response.error]

/-- C4 witness: the amended theorem applied to the concrete empty
registry with a concrete volume and brightness command. -/
theorem c4_absent_adapter_error_witness :
    serverNoBackends.state.audio_control = none
    ∧ serverNoBackends.state.backlight_control = none
    ∧ serverNoBackends.handle_command (.Volume .Mute) =
        some (.Error "Audio control not available", serverNoBackends, [])
    ∧ serverNoBackends.handle_command (.Brightness (.Set 50)) =
        some (.Error "Backlight control not available", serverNoBackends, []) := by
  have h := c4_absent_adapter_error serverNoBackends .Mute (.Set 50) .Shutdown rfl rfl
  exact ⟨rfl, rfl, h.1, h.2.1⟩

/-- `get_brightness` never returns an error. -/
lemma get_brightness_ok (st : BacklightControl) :
    ∃ v st2, st.get_brightness = (.ok v, st2) := by
  rcases hd : st.device with _ | d
  · exact ⟨st.current_brightness, st, by simp [BacklightControl.get_brightness, hd]⟩
  · rcases hr : read_brightness_from_sysfs d with e | b
    · exact ⟨st.current_brightness, st,
        by simp [BacklightControl.get_brightness, hd, hr]⟩
    · exact ⟨b, { st with current_brightness := b },
        by simp [BacklightControl.get_brightness, hd, hr]⟩

/-- `get_brightness` keeps the `events` flag. -/
lemma get_brightness_events_flag (st : BacklightControl) :
    st.get_brightness.2.events = st.events := by
  rcases hd : st.device with _ | d
  · simp [BacklightControl.get_brightness, hd]
  · rcases hr : read_brightness_from_sysfs d with e | b <;>
      simp [BacklightControl.get_brightness, hd, hr]

/-- `increase_brightness` always succeeds. -/
lemma increase_brightness_ok (st : BacklightControl) (step : ℚ) :
    (st.increase_brightness step).1 = .ok () := by
  obtain ⟨v, st1, h⟩ := get_brightness_ok st
  simp [BacklightControl.increase_brightness, h, set_brightness_ok]

/-- `decrease_brightness` always succeeds. -/
lemma decrease_brightness_ok (st : BacklightControl) (step : ℚ) :
    (st.decrease_brightness step).1 = .ok () := by
  obtain ⟨v, st1, h⟩ := get_brightness_ok st
  simp [BacklightControl.decrease_brightness, h, set_brightness_ok]

/-- Trace of `increase_brightness` when an event manager is attached:
exactly one `BrightnessChanged` carrying the new cached level. -/
lemma increase_brightness_trace (st : BacklightControl) (s : ℚ)
    (h : st.events = true) :
    (st.increase_brightness s).2.2 =
      [Event.BrightnessChanged (st.increase_brightness s).2.1.current_brightness] := by
  obtain ⟨v, st1, hg⟩ := get_brightness_ok st
  have hev : st1.events = true := by
    have hf := get_brightness_events_flag st
    rw [hg] at hf
    rw [hf, h]
  simp only [BacklightControl.increase_brightness, hg]
  rw [set_brightness_events, set_brightness_cache, hev]
  simp

/-- Trace of `decrease_brightness` when an event manager is attached. -/
lemma decrease_brightness_trace (st : BacklightControl) (s : ℚ)
    (h : st.events = true) :
    (st.decrease_brightness s).2.2 =
      [Event.BrightnessChanged (st.decrease_brightness s).2.1.current_brightness] := by
  obtain ⟨v, st1, hg⟩ := get_brightness_ok st
  have hev : st1.events = true := by
    have hf := get_brightness_events_flag st
    rw [hg] at hf
    rw [hf, h]
  simp only [BacklightControl.decrease_brightness, hg]
  rw [set_brightness_events, set_brightness_cache, hev]
  simp

/-- C2: every successful mutating adapter call with an event manager
attached publishes exactly one event, and its payload is exactly the
new cached state: `VolumeChanged` carries the just-written level and
the current mute flag for all five audio mutations, and
`BrightnessChanged` carries the just-written level for all three
backlight mutations. -/
theorem c2_one_event_matching_cache (audio : AudioControl)
    (backlight : BacklightControl) (x y s t u v : ℚ) (m : Bool)
    (ha : audio.events = true) (hb : backlight.events = true) :
    (audio.set_volume x).2.2 =
      [Event.VolumeChanged (audio.set_volume x).2.1.volume
        (audio.set_volume x).2.1.muted]
    ∧ (audio.set_mute m).2.2 =
      [Event.VolumeChanged (audio.set_mute m).2.1.volume
        (audio.set_mute m).2.1.muted]
    ∧ audio.toggle_mute.2.2 =
      [Event.VolumeChanged audio.toggle_mute.2.1.volume
        audio.toggle_mute.2.1.muted]
    ∧ (audio.increase_volume s).2.2 =
      [Event.VolumeChanged (audio.increase_volume s).2.1.volume
        (audio.increase_volume s).2.1.muted]
    ∧ (audio.decrease_volume t).2.2 =
      [Event.VolumeChanged (audio.decrease_volume t).2.1.volume
        (audio.decrease_volume t).2.1.muted]
    ∧ (backlight.set_brightness y).2.2 =
      [Event.BrightnessChanged (backlight.set_brightness y).2.1.current_brightness]
    ∧ (backlight.increase_brightness u).2.2 =
      [Event.BrightnessChanged (backlight.increase_brightness u).2.1.current_brightness]
    ∧ (backlight.decrease_brightness v).2.2 =
      [Event.BrightnessChanged (backlight.decrease_brightness v).2.1.current_brightness] := by
  refine ⟨?_, ?_, ?_, ?_, ?_, ?_, ?_, ?_⟩
  · simp [AudioControl.set_volume, ha]
  · simp [AudioControl.set_mute, ha]
  · simp [AudioControl.toggle_mute, AudioControl.get_mute, AudioControl.set_mute, ha]
  · simp [AudioControl.increase_volume, AudioControl.get_volume, AudioControl.set_volume, ha]
  · simp [AudioControl.decrease_volume, AudioControl.get_volume, AudioControl.set_volume, ha]
  · rw [set_brightness_events, set_brightness_cache, hb]
    simp
  · exact increase_brightness_trace backlight u hb
  · exact decrease_brightness_trace backlight v hb

/-- C2 witness: the audio adapter built by `with_events` and a
backlight adapter with no device, both with an event manager, at
concrete inputs. -/
theorem c2_one_event_matching_cache_witness :
    AudioControl.with_events.events = true
    ∧ (⟨none, 50, true⟩ : BacklightControl).events = true
    ∧ (AudioControl.with_events.set_volume 30).2.2 =
        [Event.VolumeChanged (AudioControl.with_events.set_volume 30).2.1.volume
          (AudioControl.with_events.set_volume 30).2.1.muted]
    ∧ ((⟨none, 50, true⟩ : BacklightControl).increase_brightness 10).2.2 =
        [Event.BrightnessChanged
          ((⟨none, 50, true⟩ : BacklightControl).increase_brightness 10).2.1.current_brightness] := by
  have h := c2_one_event_matching_cache AudioControl.with_events
    (⟨none, 50, true⟩ : BacklightControl) 30 0 0 0 10 0 false rfl rfl
  exact ⟨rfl, rfl, h.1, h.2.2.2.2.2.2.1⟩

/-- C3: when the best-effort sysfs propagation of `set_brightness`
fails, the call still returns Ok, the cache keeps the newly clamped
value, the device state is untouched, and the `BrightnessChanged` event
is still published. -/
theorem c3_propagation_failure_keeps_cache (st : BacklightControl) (x : ℚ)
    (d : SysfsDevice) (hdev : st.device = some d) (hev : st.events = true)
    (hfail : exceptOk (write_brightness_to_sysfs d (fclamp x 0 100)) = false) :
    (st.set_brightness x).1 = .ok ()
    ∧ (st.set_brightness x).2.1.current_brightness = fclamp x 0 100
    ∧ (st.set_brightness x).2.1.device = some d
    ∧ (st.set_brightness x).2.2 = [Event.BrightnessChanged (fclamp x 0 100)] := by
  rcases hw : write_brightness_to_sysfs d (fclamp x 0 100) with e | d2
  · refine ⟨rfl, set_brightness_cache st x, ?_, ?_⟩
    · simp [BacklightControl.set_brightness, hdev, hw]
    · rw [set_brightness_events, hev]
      simp
  · rw [hw] at hfail
    simp [exceptOk] at hfail

/-- Backlight adapter whose sysfs device rejects writes (no udev
permission), used as concrete input. -/
def backlightUnwritable : BacklightControl :=
  { device := some
      { brightnessRaw := 40, maxBrightness := 100,
        brightnessReadable := true, maxReadable := true, writable := false }
    current_brightness := 50
    events := true }

/-- C3 witness: the theorem applied to the unwritable device at level
70. -/
theorem c3_propagation_failure_keeps_cache_witness :
    backlightUnwritable.events = true
    ∧ exceptOk (write_brightness_to_sysfs
        ⟨40, 100, true, true, false⟩ (fclamp 70 0 100)) = false
    ∧ (backlightUnwritable.set_brightness 70).1 = .ok ()
    ∧ (backlightUnwritable.set_brightness 70).2.1.current_brightness = fclamp 70 0 100
    ∧ (backlightUnwritable.set_brightness 70).2.2 =
        [Event.BrightnessChanged (fclamp 70 0 100)] := by
  have h := c3_propagation_failure_keeps_cache backlightUnwritable 70
    ⟨40, 100, true, true, false⟩ rfl rfl (by decide)
  exact ⟨rfl, by decide, h.1, h.2.1, h.2.2.2⟩

/-- Sysfs device reporting 80 of 100 with all accesses working. -/
def staleDevice : SysfsDevice :=
  { brightnessRaw := 80, maxBrightness := 100,
    brightnessReadable := true, maxReadable := true, writable := true }

/-- Backlight adapter whose sysfs device holds a value (80%) different
from the cache (50%), used as concrete input. -/
def backlightStale : BacklightControl :=
  { device := some staleDevice, current_brightness := 50, events := false }

/-- Reading the stale device yields 80. -/
lemma staleDevice_read : read_brightness_from_sysfs staleDevice = .ok 80 := by
  simp only [read_brightness_from_sysfs, staleDevice]
  norm_num

/-- C6 counterexample: with a readable sysfs device present,
`get_brightness` is not a pure cached-state read: it returns the fresh
sysfs value (80), not the cached snapshot (50), and it overwrites the
cache with it. -/
theorem c6_counterexample :
    backlightStale.current_brightness = 50
    ∧ backlightStale.get_brightness.1 = .ok 80
    ∧ backlightStale.get_brightness.2.current_brightness = 80
    ∧ (50 : ℚ) ≠ 80 := by
  have hg : backlightStale.get_brightness =
      (.ok 80, { backlightStale with current_brightness := 80 }) := by
    simp [BacklightControl.get_brightness, backlightStale, staleDevice_read]
  refine ⟨rfl, ?_, ?_, by norm_num⟩
  · rw [hg]
  · rw [hg]

/-- C6 amended: `get_volume` and `get_mute` are pure cached reads that
never fail and never touch the external service; `get_brightness` also
never fails, but when a device is present and its sysfs read succeeds
it performs that read and overwrites the cache with the fresh value —
only when the device is absent or the read fails does it return the
cached level with the state untouched. -/
theorem c6_reads_cached_state (audio : AudioControl) (st : BacklightControl) :
    audio.get_volume = .ok audio.volume
    ∧ audio.get_mute = .ok audio.muted
    ∧ (st.sysfsReadOk = false →
        st.get_brightness = (.ok st.current_brightness, st))
    ∧ (∀ d b, st.device = some d → read_brightness_from_sysfs d = .ok b →
        st.get_brightness = (.ok b, { st with current_brightness := b }))
    ∧ (∃ v st2, st.get_brightness = (.ok v, st2)) := by
  refine ⟨rfl, rfl, get_brightness_of_read_fails st, ?_, get_brightness_ok st⟩
  intro d b hd hr
  simp [BacklightControl.get_brightness, hd, hr]

/-- Backlight adapter with no sysfs device at all. -/
def backlightNoDevice : BacklightControl :=
  { device := none, current_brightness := 50, events := true }

/-- C6 witness: the amended theorem applied to the device-less adapter,
whose read always falls back to the cache. -/
theorem c6_reads_cached_state_witness :
    backlightNoDevice.sysfsReadOk = false
    ∧ backlightNoDevice.get_brightness =
        (.ok backlightNoDevice.current_brightness, backlightNoDevice) :=
  ⟨rfl, (c6_reads_cached_state AudioControl.new backlightNoDevice).2.2.1 rfl⟩

/-- Backlight adapter for the round-trip counterexample: sysfs reads
back 80% while the cache says 50%. -/
def backlightRoundTrip : BacklightControl :=
  { device := some staleDevice, current_brightness := 50, events := false }

/-- The device state after writing 90% to the stale device. -/
def staleDevice90 : SysfsDevice :=
  { brightnessRaw := 90, maxBrightness := 100,
    brightnessReadable := true, maxReadable := true, writable := true }

/-- Writing 90% to the stale device stores raw value 90. -/
lemma staleDevice_write_90 :
    write_brightness_to_sysfs staleDevice 90 = .ok staleDevice90 := by
  simp only [write_brightness_to_sysfs, staleDevice, staleDevice90]
  norm_num [rustRound, f64AsU32]
  decide

/-- Reading the written-back device yields 90. -/
lemma staleDevice90_read : read_brightness_from_sysfs staleDevice90 = .ok 90 := by
  simp only [read_brightness_from_sysfs, staleDevice90]
  norm_num

/-- State of the round-trip adapter after `increase_brightness 10`. -/
lemma backlightRoundTrip_step1 :
    (backlightRoundTrip.increase_brightness 10).2.1 =
      { device := some staleDevice90, current_brightness := 90, events := false } := by
  have hg : backlightRoundTrip.get_brightness =
      (.ok 80,
        { device := some staleDevice, current_brightness := 80, events := false }) := by
    simp [BacklightControl.get_brightness, backlightRoundTrip, staleDevice_read]
  have hmin : ((80 : ℚ) + 10) ⊓ 100 = 90 := by norm_num
  have hcl : fclamp 90 0 100 = 90 := by norm_num [fclamp]
  simp only [BacklightControl.increase_brightness, hg,
    BacklightControl.set_brightness, hmin, hcl, staleDevice_write_90]

/-- State after the subsequent `decrease_brightness 10`: the cache ends
at 80, the sysfs-read value, not at the original 50. -/
lemma backlightRoundTrip_step2 :
    ((backlightRoundTrip.increase_brightness 10).2.1.decrease_brightness 10).2.1.current_brightness
      = 80 := by
  rw [backlightRoundTrip_step1]
  have hg : ({ device := some staleDevice90, current_brightness := 90, events := false } :
        BacklightControl).get_brightness =
      (.ok 90,
        { device := some staleDevice90, current_brightness := 90, events := false }) := by
    simp [BacklightControl.get_brightness, staleDevice90_read]
  have hmax : ((90 : ℚ) - 10) ⊔ 0 = 80 := by norm_num
  simp only [BacklightControl.decrease_brightness, hg, hmax, set_brightness_cache]
  norm_num [fclamp]

/-- C7 counterexample: starting from cached level 50 with a readable
sysfs device holding 80, `increase(10)` then `decrease(10)` ends with
cached level 80, not the starting 50, although every intermediate level
(90, then 80) stays inside [0, 100]: the sysfs read inside the step
operations replaces the cached level before stepping. -/
theorem c7_counterexample :
    backlightRoundTrip.current_brightness = 50
    ∧ (backlightRoundTrip.increase_brightness 10).2.1.current_brightness = 90
    ∧ ((backlightRoundTrip.increase_brightness 10).2.1.decrease_brightness 10).2.1.current_brightness = 80
    ∧ (80 : ℚ) ≠ 50 := by
  refine ⟨rfl, ?_, backlightRoundTrip_step2, by norm_num⟩
  rw [backlightRoundTrip_step1]

/-- C7 amended: `increase(s)` then `decrease(s)` returns the cached
level to its starting value whenever the intermediate value stays
inside the clamping bounds — unconditionally for the volume adapter,
and for the brightness adapter in every state where no successful sysfs
read occurs (device absent or read failing), since a successful read
first replaces the cached level. -/
theorem c7_increase_decrease_roundtrip (audio : AudioControl)
    (blk : BacklightControl) (s : ℚ) (hs : 0 ≤ s)
    (hv0 : 0 ≤ audio.volume) (hv1 : audio.volume + s ≤ 100)
    (hb : blk.sysfsReadOk = false)
    (hb0 : 0 ≤ blk.current_brightness)
    (hb1 : blk.current_brightness + s ≤ 100) :
    ((audio.increase_volume s).2.1.decrease_volume s).2.1.volume = audio.volume
    ∧ ((blk.increase_brightness s).2.1.decrease_brightness s).2.1.current_brightness
        = blk.current_brightness := by
  constructor
  · simp only [AudioControl.increase_volume, AudioControl.get_volume,
      AudioControl.set_volume, AudioControl.decrease_volume]
    rw [min_eq_left hv1]
    rw [fclamp_of_mem (audio.volume + s) (by linarith) (by linarith)]
    have harith : audio.volume + s - s = audio.volume := by ring
    rw [harith, max_eq_left hv0]
    rw [fclamp_of_mem _ hv0 (by linarith)]
  · have h1 := get_brightness_of_read_fails blk hb
    simp only [BacklightControl.increase_brightness, h1]
    have h2 : ((blk.set_brightness (min (blk.current_brightness + s) 100)).2.1).sysfsReadOk = false := by
      rw [set_brightness_sysfsReadOk]
      exact hb
    have h3 := get_brightness_of_read_fails _ h2
    simp only [BacklightControl.decrease_brightness, h3]
    rw [set_brightness_cache, set_brightness_cache]
    rw [min_eq_left hb1]
    rw [fclamp_of_mem (blk.current_brightness + s) (by linarith) (by linarith)]
    have harith : blk.current_brightness + s - s = blk.current_brightness := by ring
    rw [harith, max_eq_left hb0]
    rw [fclamp_of_mem _ hb0 (by linarith)]

/-- C7 witness: the amended round trip at the default adapter caches
(volume 50, brightness 50 with no device) and step 10. -/
theorem c7_increase_decrease_roundtrip_witness :
    (0 : ℚ) ≤ 10
    ∧ (0 : ℚ) ≤ AudioControl.new.volume
    ∧ AudioControl.new.volume + 10 ≤ 100
    ∧ backlightNoDevice.sysfsReadOk = false
    ∧ ((AudioControl.new.increase_volume 10).2.1.decrease_volume 10).2.1.volume
        = AudioControl.new.volume
    ∧ ((backlightNoDevice.increase_brightness 10).2.1.decrease_brightness 10).2.1.current_brightness
        = backlightNoDevice.current_brightness := by
  have h := c7_increase_decrease_roundtrip AudioControl.new backlightNoDevice 10
    (by norm_num) (by norm_num [AudioControl.new]) (by norm_num [AudioControl.new])
    rfl (by norm_num [backlightNoDevice]) (by norm_num [backlightNoDevice])
  exact ⟨by norm_num, by norm_num [AudioControl.new], by norm_num [AudioControl.new],
    rfl, h.1, h.2⟩

/-- Emitting a list of events appends it to the channel log. -/
lemma emitAll_log (m : EventManager) (l : List Event) :
    (m.emitAll l).log = m.log ++ l := by
  induction l generalizing m with
  | nil => simp [EventManager.emitAll]
  | cons e t ih =>
    have h := ih (m.emit e)
    simp only [EventManager.emitAll, List.foldl_cons] at h ⊢
    rw [h]
    simp [EventManager.emit]

/-- Emitting events does not change the channel capacity. -/
lemma emitAll_capacity (m : EventManager) (l : List Event) :
    (m.emitAll l).capacity = m.capacity := by
  induction l generalizing m with
  | nil => simp [EventManager.emitAll]
  | cons e t ih =>
    have h := ih (m.emit e)
    simp only [EventManager.emitAll, List.foldl_cons] at h ⊢
    rw [h]
    simp [EventManager.emit]

/-- C8: a receiver obtained from `subscribe()` after the events `pre`
were published observes none of them: after any further events `post`
are published, what it can observe is exactly the suffix of `post`
retained by the bounded buffer — all of `post` when `post` fits within
the channel capacity, and only the last `capacity` entries otherwise —
in publish order. `subscribe` itself is a total function on the channel
state and cannot fail. -/
theorem c8_subscriber_sees_only_later_events (capacity : ℕ)
    (pre post : List Event) :
    (((EventManager.new capacity).emitAll pre).emitAll post).observable
        ((EventManager.new capacity).emitAll pre).subscribe
      = post.drop (post.length - capacity)
    ∧ List.IsSuffix
        ((((EventManager.new capacity).emitAll pre).emitAll post).observable
          ((EventManager.new capacity).emitAll pre).subscribe)
        post := by
  have hlog1 : ((EventManager.new capacity).emitAll pre).log = pre := by
    rw [emitAll_log]
    simp [EventManager.new]
  have hlog2 : (((EventManager.new capacity).emitAll pre).emitAll post).log
      = pre ++ post := by
    rw [emitAll_log, hlog1]
  have hcap2 : (((EventManager.new capacity).emitAll pre).emitAll post).capacity
      = capacity := by
    rw [emitAll_capacity, emitAll_capacity]
    rfl
  have hsub : ((EventManager.new capacity).emitAll pre).subscribe = pre.length := by
    rw [EventManager.subscribe, hlog1]
  have heq : (((EventManager.new capacity).emitAll pre).emitAll post).observable
      ((EventManager.new capacity).emitAll pre).subscribe
      = post.drop (post.length - capacity) := by
    rw [EventManager.observable, hlog2, hcap2, hsub, List.length_append]
    have hmax : max pre.length (pre.length + post.length - capacity)
        = pre.length + (post.length - capacity) := by omega
    rw [hmax, List.drop_append]
  exact ⟨heq, heq ▸ List.drop_suffix _ _⟩

/-- With an audio adapter present, every volume action maps to the
Success response: no audio mutation can fail. -/
lemma handle_volume_response (srv : IpcServer) (audio : AudioControl)
    (h : srv.state.audio_control = some audio) (a : VolumeAction) :
    (srv.handle_volume a).1 = Response.Success (some "Volume adjusted") := by
  cases a <;> simp [IpcServer.handle_volume, h, AudioControl.increase_volume,
    AudioControl.decrease_volume, AudioControl.get_volume, AudioControl.set_volume,
    AudioControl.set_mute, AudioControl.toggle_mute, AudioControl.get_mute,
    Response.success_with_message]

/-- With a backlight adapter present, every brightness action maps to
the Success response: no backlight mutation can fail, whatever the
sysfs device does. -/
lemma handle_brightness_response (srv : IpcServer) (blk : BacklightControl)
    (h : srv.state.backlight_control = some blk) (b : BrightnessAction) :
    (srv.handle_brightness b).1 = Response.Success (some "Brightness adjusted") := by
  cases b with
  | Up amount =>
    have hok := increase_brightness_ok blk (amount.getD DEFAULT_BRIGHTNESS_STEP)
    rcases hr : blk.increase_brightness (amount.getD DEFAULT_BRIGHTNESS_STEP)
      with ⟨res, st2, evs⟩
    rw [hr] at hok
    simp only at hok
    subst hok
    simp [IpcServer.handle_brightness, h, hr, Response.success_with_message]
  | Down amount =>
    have hok := decrease_brightness_ok blk (amount.getD DEFAULT_BRIGHTNESS_STEP)
    rcases hr : blk.decrease_brightness (amount.getD DEFAULT_BRIGHTNESS_STEP)
      with ⟨res, st2, evs⟩
    rw [hr] at hok
    simp only at hok
    subst hok
    simp [IpcServer.handle_brightness, h, hr, Response.success_with_message]
  | Set level =>
    simp [IpcServer.handle_brightness, h, BacklightControl.set_brightness,
      Response.success_with_message]

/-- C10: `AppState::new` is a total function with no failure path, and
every one of the seven adapter fields of the registry it builds is
`Some` whatever the environment — only `niri_client` mirrors the
availability of the compositor. Consequently, for a server over a
freshly built registry, the volume and brightness not-available error
branches are unreachable: every volume and brightness command yields
the Success response. -/
theorem c10_registry_always_fully_built (w : SystemWorld) (version : String)
    (uptime : ℕ) (a : VolumeAction) (b : BrightnessAction) :
    (AppState.new w).audio_control.isSome = true
    ∧ (AppState.new w).backlight_control.isSome = true
    ∧ (AppState.new w).bluetooth_control.isSome = true
    ∧ (AppState.new w).network_control.isSome = true
    ∧ (AppState.new w).media_control.isSome = true
    ∧ (AppState.new w).battery_control.isSome = true
    ∧ (AppState.new w).power_control.isSome = true
    ∧ (AppState.new w).niri_client.isSome = w.niri_available
    ∧ ((⟨AppState.new w, version, uptime⟩ : IpcServer).handle_volume a).1
        = Response.Success (some "Volume adjusted")
    ∧ ((⟨AppState.new w, version, uptime⟩ : IpcServer).handle_brightness b).1
        = Response.Success (some "Brightness adjusted") := by
  refine ⟨rfl, rfl, rfl, rfl, rfl, rfl, rfl, ?_, ?_, ?_⟩
  · cases hw : w.niri_available <;> simp [AppState.new, hw]
  · exact handle_volume_response ⟨AppState.new w, version, uptime⟩
      AudioControl.with_events rfl a
  · exact handle_brightness_response ⟨AppState.new w, version, uptime⟩
      { device := w.backlight_device, current_brightness := 50, events := true } rfl b
